import Mathlib

/-!
Verification of the LinkSocks LocalProvider (provider module of the
cloudflyer nodejs sdk) against its natural-language specification.

The provider is a single-threaded, event-driven WebSocket client.  We embed
it shallowly: the mutable fields of the LocalProvider class become a
ProviderState record, and every method or installed event callback becomes a
pure function from a state (plus the event's data) to a new state together
with a list of observable Actions (frames handed to the WebSocket, socket
opens/destroys, WebSocket closes).  Fresh identifiers that the runtime
supplies (new socket objects, uuidv4 channel ids) are passed as explicit
parameters.
-/

/-- readyState constant WebSocket.OPEN of the ws library. -/
def wsOPEN : Nat := 1

/-- readyState constant WebSocket.CONNECTING of the ws library. -/
def wsCONNECTING : Nat := 0

/-- Transport protocol of a channel, field protocol of Connect and Data frames. -/
inductive Protocol where
  | tcp
  | udp
deriving DecidableEq, Repr

/-- Operation field of a Connector frame. -/
inductive ConnOp where
  | add
  | remove
deriving DecidableEq, Repr

/-- Logical frames exchanged with the relay, with the fields the provider
module reads or writes (interfaces AuthResponseMessage, ConnectMessage,
ConnectResponseMessage, DataMessage, DisconnectMessage, ConnectorMessage,
ConnectorResponseMessage, LogMessage, PartnersMessage of the message module,
as used by the provider; the compression field of Data carries
DataCompression.None = 0 on every frame the provider sends). -/
inductive Frame where
  | auth (token : String)
  | authResponse (success : Bool) (error : Option String)
  | connect (channelId : String) (protocol : Protocol)
      (address : Option String) (port : Option Nat)
  | connectResponse (channelId : String) (success : Bool) (error : Option String)
  | data (channelId : String) (protocol : Protocol) (payload : List Nat)
      (compression : Nat) (address : Option String) (port : Option Nat)
  | disconnect (channelId : String)
  | connector (channelId : String) (connectorToken : String) (operation : ConnOp)
  | connectorResponse (success : Bool) (connectorToken : Option String)
      (error : Option String)
  | log (level : String) (msg : String)
  | partners (count : Nat)
deriving DecidableEq, Repr

/-- Observable effects of the provider: frames actually written to the
WebSocket, WebSocket closes, and lifecycle operations on channel sockets
(identified by a numeric handle supplied by the environment). -/
inductive Effect where
  | wsSend (f : Frame)
  | wsClose
  | tcpSocketOpen (sock : Nat) (address : String) (port : Nat)
  | tcpDestroy (sock : Nat)
  | udpSocketOpen (sock : Nat)
  | udpClose (sock : Nat)
deriving DecidableEq, Repr

/-- The mutable fields of the LocalProvider class.  The ws field is none when
this.ws is null and some r when a WebSocket with readyState r exists.  The
channel Maps become association lists in insertion order; the connector token
Set becomes a duplicate-free list in insertion order.  The clientAddr and
clientPort fields of a UDP channel are written by handleData but never read
anywhere in the module, so they are not carried here.  Of the options record
only maxReconnectAttempts is carried: it is the only option any claim's state
transition reads. -/
structure ProviderState where
  ws : Option Nat
  tcpChannels : List (String × Nat)
  udpChannels : List (String × Nat)
  reconnectAttempts : Nat
  isClosing : Bool
  partnersCount : Nat
  connectorTokens : List String
  maxReconnectAttempts : Nat
deriving DecidableEq, Repr

/-- Lookup in a JS Map modelled as an association list (Map.prototype.get). -/
def mapGet : List (String × Nat) → String → Option Nat
  | [], _ => none
  | p :: rest, k => if p.1 = k then some p.2 else mapGet rest k

/-- JS Map.prototype.set: updates the value in place when the key is present
(keeping insertion order), otherwise appends a new entry. -/
def mapSet : List (String × Nat) → String → Nat → List (String × Nat)
  | [], k, v => [(k, v)]
  | p :: rest, k, v =>
    if p.1 = k then (k, v) :: rest else p :: mapSet rest k v

/-- JS Map.prototype.delete: removes the entry with the given key. -/
def mapDelete : List (String × Nat) → String → List (String × Nat)
  | [], _ => []
  | p :: rest, k => if p.1 = k then mapDelete rest k else p :: mapDelete rest k

/-- JS Set.prototype.add: appends the element when it is not yet a member. -/
def setAdd (l : List String) (t : String) : List String :=
  if t ∈ l then l else l ++ [t]

/-- JS Set.prototype.delete: removes the element. -/
def setDelete : List String → String → List String
  | [], _ => []
  | s :: rest, t => if s = t then setDelete rest t else s :: setDelete rest t

/-- JS truthiness of an optional string (undefined and the empty string are
falsy). -/
def truthy : Option String → Bool
  | none => false
  | some s => s ≠ ""

/-- JS or-or with a string default: the left operand unless it is falsy —
absent or the empty string — in which case the default; translates
expressions of the shape msg.error or-or some fallback text. -/
def jsOrDefault (e : Option String) (d : String) : String :=
  match e with
  | none => d
  | some s => if s = "" then d else s

namespace LocalProvider

/-- Method send of LocalProvider: writes the frame to the WebSocket only when
this.ws is non-null and its readyState equals WebSocket.OPEN; otherwise the
frame is dropped on the floor (nothing is queued, nothing throws). -/
def send (st : ProviderState) (f : Frame) : List Effect :=
  if st.ws = some wsOPEN then [Effect.wsSend f] else []

/-- Method sendConnectResponse of LocalProvider. -/
def sendConnectResponse (st : ProviderState) (channelId : String)
    (success : Bool) (error : Option String) : List Effect :=
  send st (Frame.connectResponse channelId success error)

/-- Method sendData of LocalProvider (compression is always DataCompression.None). -/
def sendData (st : ProviderState) (channelId : String) (protocol : Protocol)
    (payload : List Nat) (address : Option String) (port : Option Nat) : List Effect :=
  send st (Frame.data channelId protocol payload 0 address port)

/-- Method sendDisconnect of LocalProvider. -/
def sendDisconnect (st : ProviderState) (channelId : String) : List Effect :=
  send st (Frame.disconnect channelId)

/-- Method addConnectorToken of LocalProvider: builds a Connector frame with a
fresh uuidv4 channel id (passed here as freshChannelId) and the given token
(or the empty string when the token is undefined or empty, operator or-or),
and hands it to send.  The local connectorTokens set is not touched. -/
def addConnectorToken (st : ProviderState) (freshChannelId : String)
    (token : Option String) : ProviderState × List Effect :=
  (st, send st (Frame.connector freshChannelId (token.getD "") ConnOp.add))

/-- Method removeConnectorToken of LocalProvider: sends a Connector remove
frame and deletes the token from the local set. -/
def removeConnectorToken (st : ProviderState) (freshChannelId : String)
    (token : String) : ProviderState × List Effect :=
  ({ st with connectorTokens := setDelete st.connectorTokens token },
   send st (Frame.connector freshChannelId token ConnOp.remove))

/-- Method getConnectorTokens of LocalProvider. -/
def getConnectorTokens (st : ProviderState) : List String :=
  st.connectorTokens

/-- Method getPartnersCount of LocalProvider. -/
def getPartnersCount (st : ProviderState) : Nat :=
  st.partnersCount

/-- Method isConnected of LocalProvider: this.ws is non-null and its
readyState equals WebSocket.OPEN. -/
def isConnected (st : ProviderState) : Bool :=
  match st.ws with
  | none => false
  | some r => r = wsOPEN

/-- Method handleTCPConnect of LocalProvider, synchronous part (no upstream
proxy configured): creates a fresh net.Socket (handle freshSock supplied by
the runtime), installs the connect, data, close and error callbacks modelled
below, and starts connecting to address and port.  Nothing is registered yet
and no frame is sent; registration happens in tcpConnectCallback when the
socket's connect event fires. -/
def handleTCPConnect (_st : ProviderState) (_channelId : String)
    (address : String) (port : Nat) (freshSock : Nat) : List Effect :=
  [Effect.tcpSocketOpen freshSock address port]

/-- The socket.on connect callback installed by handleTCPConnect: registers
the channel (Map.set, replacing any entry under the same id) and sends
ConnectResponse success. -/
def tcpConnectCallback (st : ProviderState) (channelId : String)
    (sock : Nat) : ProviderState × List Effect :=
  let st' := { st with tcpChannels := mapSet st.tcpChannels channelId sock }
  (st', sendConnectResponse st' channelId true none)

/-- The socket.on data callback installed by handleTCPConnect: forwards the
payload as a Data frame. -/
def tcpDataCallback (st : ProviderState) (channelId : String)
    (payload : List Nat) : List Effect :=
  sendData st channelId Protocol.tcp payload none none

/-- The socket.on close callback installed by handleTCPConnect: deletes the
registry entry and sends a Disconnect frame to the relay. -/
def tcpCloseCallback (st : ProviderState) (channelId : String) :
    ProviderState × List Effect :=
  let st' := { st with tcpChannels := mapDelete st.tcpChannels channelId }
  (st', sendDisconnect st' channelId)

/-- The socket.on error callback installed by handleTCPConnect: deletes the
registry entry and sends ConnectResponse failure with the error text. -/
def tcpErrorCallback (st : ProviderState) (channelId : String)
    (errMsg : String) : ProviderState × List Effect :=
  let st' := { st with tcpChannels := mapDelete st.tcpChannels channelId }
  (st', sendConnectResponse st' channelId false (some errMsg))

/-- Method handleUDPConnect of LocalProvider, synchronous part: creates a
fresh dgram socket and starts binding it; registration and the
ConnectResponse happen in udpBindCallback. -/
def handleUDPConnect (_st : ProviderState) (_channelId : String)
    (freshSock : Nat) : List Effect :=
  [Effect.udpSocketOpen freshSock]

/-- The socket.bind callback installed by handleUDPConnect: registers the
channel (Map.set) and sends ConnectResponse success. -/
def udpBindCallback (st : ProviderState) (channelId : String)
    (sock : Nat) : ProviderState × List Effect :=
  let st' := { st with udpChannels := mapSet st.udpChannels channelId sock }
  (st', sendConnectResponse st' channelId true none)

/-- The socket.on close callback installed by handleUDPConnect: deletes the
registry entry (no frame is sent). -/
def udpCloseCallback (st : ProviderState) (channelId : String) : ProviderState :=
  { st with udpChannels := mapDelete st.udpChannels channelId }

/-- Method handleDisconnectMessage of LocalProvider, handling an inbound
Disconnect frame: when a TCP channel with that id is registered its socket is
destroyed and the entry deleted; likewise for a UDP channel (close).  The
method itself sends nothing. -/
def handleDisconnectMessage (st : ProviderState) (channelId : String) :
    ProviderState × List Effect :=
  let r₁ :=
    match mapGet st.tcpChannels channelId with
    | some sock =>
      ({ st with tcpChannels := mapDelete st.tcpChannels channelId },
       [Effect.tcpDestroy sock])
    | none => (st, ([] : List Effect))
  match mapGet r₁.1.udpChannels channelId with
  | some sock =>
    ({ r₁.1 with udpChannels := mapDelete r₁.1.udpChannels channelId },
     r₁.2 ++ [Effect.udpClose sock])
  | none => r₁

/-- Inbound Disconnect for a TCP channel together with its asynchronous
aftermath: net.Socket.destroy makes the destroyed socket emit its close
event, so the close callback installed by handleTCPConnect runs next on the
resulting state. -/
def disconnectTeardown (st : ProviderState) (channelId : String) :
    ProviderState × List Effect :=
  let r₁ := handleDisconnectMessage st channelId
  let r₂ := tcpCloseCallback r₁.1 channelId
  (r₂.1, r₁.2 ++ r₂.2)

/-- Method handleConnectorResponse of LocalProvider: on success with a truthy
connector token, the token is added to the local set; otherwise the state is
unchanged (a failure is only logged). -/
def handleConnectorResponse (st : ProviderState) (success : Bool)
    (connectorToken : Option String) : ProviderState :=
  if success && truthy connectorToken then
    { st with connectorTokens := setAdd st.connectorTokens (connectorToken.getD "") }
  else st

/-- Method handlePartners of LocalProvider. -/
def handlePartners (st : ProviderState) (count : Nat) : ProviderState :=
  { st with partnersCount := count }

/-- The first event that settles the promise returned by connect(): an
AuthResponse frame, a WebSocket error, or the connect timeout firing. -/
inductive ConnectEvent where
  | authResponse (success : Bool) (error : Option String)
  | socketError (msg : String)
  | timeoutFired
deriving DecidableEq, Repr

/-- How connect() settles on the first settling event, from the timeout
callback, the ws error handler and handleAuthResponse: AuthResponse with
success resolves; AuthResponse without success rejects with the frame's error
text when it is truthy, or the text Unknown error when the field is absent or
empty (msg.error or-or, JS falsiness); a socket error rejects with that
error; the timeout rejects with the text Connection timeout after closing
this.ws (when it is non-null). -/
def connectSettle (st : ProviderState) : ConnectEvent → Except String Unit × List Effect
  | ConnectEvent.authResponse true _ => (Except.ok (), [])
  | ConnectEvent.authResponse false e =>
    (Except.error ("Authentication failed: " ++ jsOrDefault e "Unknown error"), [])
  | ConnectEvent.socketError m => (Except.error m, [])
  | ConnectEvent.timeoutFired =>
    (Except.error "Connection timeout",
     if st.ws.isSome then [Effect.wsClose] else [])

/-- The ws.on open callback installed by connect(): resets the
reconnect-attempt counter to zero and sends nothing. -/
def connectOpenCallback (st : ProviderState) : ProviderState × List Effect :=
  ({ st with reconnectAttempts := 0 }, [])

/-- Method attemptReconnect of LocalProvider: returns none when the
configured maximum is positive and already reached (no further attempt is
scheduled), otherwise increments the counter and schedules a reconnect. -/
def attemptReconnect (st : ProviderState) : Option ProviderState :=
  if st.maxReconnectAttempts > 0 ∧
      st.reconnectAttempts ≥ st.maxReconnectAttempts then none
  else some { st with reconnectAttempts := st.reconnectAttempts + 1 }

/-- The Connector add frames produced by the loop in attemptReconnect's timer
callback after connect() resolves: one addConnectorToken call per token held
in the connectorTokens set, each with a fresh uuidv4 channel id (modelled by
the supply uuid applied to the call's index). -/
def replayFrames (uuid : Nat → String) : Nat → List String → List Frame
  | _, [] => []
  | k, t :: ts => Frame.connector (uuid k) t ConnOp.add :: replayFrames uuid (k + 1) ts

/-- A successful reconnection: connect() replaced this.ws by a WebSocket that
is now open, the open callback reset the attempt counter, the AuthResponse
resolved connect(), and then the timer callback of attemptReconnect re-sends
every token currently held in the connectorTokens set via addConnectorToken
(whose send transmits, the socket being open). -/
def reconnectSuccess (uuid : Nat → String) (st : ProviderState) :
    ProviderState × List Effect :=
  let st₁ := { st with ws := some wsOPEN, reconnectAttempts := 0 }
  (st₁, (replayFrames uuid 0 st₁.connectorTokens).flatMap (send st₁))

/-- Method close of LocalProvider: sets the isClosing flag, destroys every
registered TCP socket and clears that Map, closes every registered UDP socket
and clears that Map, and when this.ws is non-null closes it and nulls the
field.  Every step is unconditional and total: nothing can throw. -/
def close (st : ProviderState) : ProviderState × List Effect :=
  ({ st with isClosing := true, tcpChannels := [], udpChannels := [], ws := none },
   st.tcpChannels.map (fun p => Effect.tcpDestroy p.2) ++
   st.udpChannels.map (fun p => Effect.udpClose p.2) ++
   (if st.ws.isSome then [Effect.wsClose] else []))

/-- Method handleDisconnect of LocalProvider (the ws.on close callback):
destroys every channel socket, clears both registries, and unless the
shutdown flag is set hands the state to attemptReconnect.  The Bool records
whether a reconnect was scheduled. -/
def handleDisconnect (st : ProviderState) : ProviderState × List Effect × Bool :=
  let st₁ := { st with tcpChannels := [], udpChannels := [] }
  let acts := st.tcpChannels.map (fun p => Effect.tcpDestroy p.2) ++
    st.udpChannels.map (fun p => Effect.udpClose p.2)
  if st₁.isClosing then (st₁, acts, false)
  else
    match attemptReconnect st₁ with
    | some st₂ => (st₂, acts, true)
    | none => (st₁, acts, false)

end LocalProvider

/-!
URL derivation.  The relay connection URL is produced in two steps: the
CloudflareSolver client first rewrites the scheme of the address the task API
returned (method normalizeWsUrl of client.ts), and the provider then appends
path and query (method buildWebSocketUrl of the provider module).  Strings
are modelled as lists of characters; the JS string primitives startsWith,
slice, includes and the one-shot regex replace of a trailing slash are
translated below.  The sha256 hex digest (crypto.createHash, external to the
repository) is an opaque parameter hash of the derivation.
-/

/-- JS String.prototype.startsWith: the second list is a prefix of the first. -/
def strStartsWith : List Char → List Char → Bool
  | _, [] => true
  | [], _ :: _ => false
  | c :: cs, p :: ps => c = p && strStartsWith cs ps

/-- Method normalizeWsUrl of CloudflareSolver (client.ts): rewrites a leading
https scheme to wss and a leading http scheme to ws, leaving any other
address unchanged. -/
def normalizeWsUrl (url : List Char) : List Char :=
  if strStartsWith url "https://".data then "wss://".data ++ url.drop 8
  else if strStartsWith url "http://".data then "ws://".data ++ url.drop 7
  else url

/-- The serverUrl.replace of buildWebSocketUrl with the regex matching one
trailing slash: drops the last character when it is a slash. -/
def stripTrailingSlash (s : List Char) : List Char :=
  if s.getLast? = some '/' then s.dropLast else s

/-- Scans to the first scheme separator (colon, slash, slash) and returns
what follows it; none when the separator never occurs. -/
def dropThroughSchemeSep : List Char → Option (List Char)
  | [] => none
  | c :: rest =>
    if c = ':' && strStartsWith rest ['/', '/'] then some (rest.drop 2)
    else dropThroughSchemeSep rest

/-- Characters that end the host component of a URL. -/
def hostDelim (c : Char) : Bool :=
  c = '/' || c = '?' || c = '#'

/-- Skips host characters up to the first delimiter. -/
def skipHost : List Char → List Char
  | [] => []
  | c :: rest => if hostDelim c then c :: rest else skipHost rest

/-- The pathname property of the WHATWG URL object built from the address (as
new URL of buildWebSocketUrl reads it): the part between the host and the
query or fragment, normalized to a single slash when the address has no
explicit path.  Faithful on addresses whose host and path stay within
unreserved URL characters: on that domain the parser performs no dot-segment
removal, no backslash rewriting and no percent-encoding, and reports the path
verbatim.  Theorem C9_url_derivation_amended restricts its inputs to that
domain. -/
def pathnameOf (s : List Char) : List Char :=
  match dropThroughSchemeSep s with
  | none => ['/']
  | some tail =>
    if (skipHost tail).head? = some '/' then
      '/' :: ((skipHost tail).tail.takeWhile (fun c => !(c = '?' || c = '#')))
    else ['/']

/-- Method buildWebSocketUrl of LocalProvider: strips a trailing slash off
the configured serverUrl, hashes the raw provider token, and either appends
the query directly (tunnel mode, non-trivial pathname: pathname non-empty,
not a bare slash, longer than one character) choosing the ampersand separator
when the base already contains a question mark, or appends the fixed socket
path before the query (direct mode). -/
def buildWebSocketUrl (hash : List Char → List Char) (serverUrl token : List Char) :
    List Char :=
  let base := stripTrailingSlash serverUrl
  let tokenHash := hash token
  let pathname := pathnameOf base
  if pathname ≠ [] ∧ pathname ≠ ['/'] ∧ 1 < pathname.length then
    let sep := if '?' ∈ base then ['&'] else ['?']
    base ++ sep ++ "token=".data ++ tokenHash ++ "&reverse=true".data
  else
    base ++ "/socket?token=".data ++ tokenHash ++ "&reverse=true".data

/-- The full derivation from the configured base address: scheme rewriting by
the client followed by path and query construction by the provider. -/
def derivedRelayUrl (hash : List Char → List Char) (configUrl token : List Char) :
    List Char :=
  buildWebSocketUrl hash (normalizeWsUrl configUrl) token

/-- A provider that has just been constructed and never connected. -/
def stNeverConnected : ProviderState :=
  { ws := none, tcpChannels := [], udpChannels := [], reconnectAttempts := 0,
    isClosing := false, partnersCount := 0, connectorTokens := [],
    maxReconnectAttempts := 0 }

/-- A provider whose relay socket is open, with no channels and no tokens. -/
def stOpenEmpty : ProviderState :=
  { stNeverConnected with ws := some wsOPEN }

/-- A provider with an open relay socket and one TCP channel with id c on
socket handle 1. -/
def stOneTcp : ProviderState :=
  { stOpenEmpty with tcpChannels := [("c", 1)] }

/-- A provider whose reconnect budget of three attempts is spent and whose
socket is gone. -/
def stExhausted : ProviderState :=
  { stNeverConnected with maxReconnectAttempts := 3, reconnectAttempts := 3 }

/-- A provider with an open relay socket, two TCP channels and one UDP
channel. -/
def stTwoTcpOneUdp : ProviderState :=
  { stOpenEmpty with tcpChannels := [("a", 1), ("b", 2)], udpChannels := [("u", 3)] }

/-- Effects that shut a channel socket down (destroy of a TCP socket or close
of a UDP socket). -/
def isChannelShutdown : Effect → Bool
  | Effect.tcpDestroy _ => true
  | Effect.udpClose _ => true
  | _ => false

/-- Claim C10: whenever the relay socket is absent or not in the open state,
every outgoing frame — connect responses, data, disconnects, connector add
and remove — is silently discarded by send rather than queued or raised as an
error; in particular addConnectorToken and removeConnectorToken called while
disconnected transmit nothing to the relay (and, the model being total
functions, nothing throws). -/
theorem C10_offline_sends_discarded (st : ProviderState) (f : Frame)
    (cid ch₁ ch₂ tok : String) (otok : Option String) (ok : Bool)
    (err : Option String) (proto : Protocol) (payload : List Nat)
    (addr : Option String) (port : Option Nat)
    (h : st.ws ≠ some wsOPEN) :
    LocalProvider.send st f = [] ∧
    LocalProvider.sendConnectResponse st cid ok err = [] ∧
    LocalProvider.sendData st cid proto payload addr port = [] ∧
    LocalProvider.sendDisconnect st cid = [] ∧
    LocalProvider.addConnectorToken st ch₁ otok = (st, []) ∧
    (LocalProvider.removeConnectorToken st ch₂ tok).2 = [] := by
  simp [LocalProvider.send, LocalProvider.sendConnectResponse,
    LocalProvider.sendData, LocalProvider.sendDisconnect,
    LocalProvider.addConnectorToken, LocalProvider.removeConnectorToken, h]

/-- Witness for C10: a never-connected provider discards a Disconnect frame
and a connector add silently. -/
theorem C10_offline_sends_discarded_witness :
    stNeverConnected.ws ≠ some wsOPEN ∧
    LocalProvider.send stNeverConnected (Frame.disconnect "c") = [] ∧
    LocalProvider.addConnectorToken stNeverConnected "ch" (some "t")
      = (stNeverConnected, []) :=
  ⟨by decide,
   (C10_offline_sends_discarded stNeverConnected (Frame.disconnect "c") "c" "ch"
     "ch2" "t" (some "t") true none Protocol.tcp [] none none (by decide)).1,
   (C10_offline_sends_discarded stNeverConnected (Frame.disconnect "c") "c" "ch"
     "ch2" "t" (some "t") true none Protocol.tcp [] none none
     (by decide)).2.2.2.2.1⟩

/-- Claim C7: reconnection is bounded — once the positive configured maximum
is reached attemptReconnect schedules nothing, every scheduled attempt
increments the counter by one, and a provider whose socket is not open is
observable as disconnected through isConnected. -/
theorem C7_reconnect_bounded (st stDown : ProviderState)
    (hmax : 0 < st.maxReconnectAttempts)
    (hexh : st.maxReconnectAttempts ≤ st.reconnectAttempts)
    (hdown : stDown.ws ≠ some wsOPEN) :
    LocalProvider.attemptReconnect st = none ∧
    (∀ st₁ st₂ : ProviderState, LocalProvider.attemptReconnect st₁ = some st₂ →
      st₂.reconnectAttempts = st₁.reconnectAttempts + 1) ∧
    LocalProvider.isConnected stDown = false := by
  refine ⟨?_, ?_, ?_⟩
  · simp [LocalProvider.attemptReconnect, hmax, hexh]
  · intro st₁ st₂ h
    unfold LocalProvider.attemptReconnect at h
    split at h
    · exact absurd h (by simp)
    · cases h
      rfl
  · unfold LocalProvider.isConnected
    cases hws : stDown.ws with
    | none => rfl
    | some r =>
      have hr : r ≠ wsOPEN := fun hr => hdown (by rw [hws, hr])
      simp [hr]

/-- Witness for C7: with the maximum set to three and three attempts spent,
no further reconnect is scheduled and the provider reports disconnected. -/
theorem C7_reconnect_bounded_witness :
    (0 < stExhausted.maxReconnectAttempts ∧
      stExhausted.maxReconnectAttempts ≤ stExhausted.reconnectAttempts) ∧
    LocalProvider.attemptReconnect stExhausted = none ∧
    LocalProvider.isConnected stExhausted = false :=
  ⟨⟨by decide, by decide⟩,
   (C7_reconnect_bounded stExhausted stExhausted (by decide) (by decide)
     (by decide)).1,
   (C7_reconnect_bounded stExhausted stExhausted (by decide) (by decide)
     (by decide)).2.2⟩

/-- Claim C2: connect() resolves exactly when an AuthResponse with success
arrives first; an AuthResponse without success rejects with the
server-supplied error text (or the text Unknown error when the frame carries
none), a socket error rejects with that error, and the connect timeout
rejects with the text Connection timeout and cancels the pending attempt by
closing the socket. -/
theorem C2_connect_resolution (st : ProviderState) (ev : LocalProvider.ConnectEvent)
    (hws : st.ws.isSome) :
    ((LocalProvider.connectSettle st ev).1 = Except.ok () ↔
      ∃ e, ev = LocalProvider.ConnectEvent.authResponse true e) ∧
    (∀ t, t ≠ "" → ev = LocalProvider.ConnectEvent.authResponse false (some t) →
      (LocalProvider.connectSettle st ev).1
        = Except.error ("Authentication failed: " ++ t)) ∧
    (∀ e, truthy e = false →
      ev = LocalProvider.ConnectEvent.authResponse false e →
      (LocalProvider.connectSettle st ev).1
        = Except.error "Authentication failed: Unknown error") ∧
    (∀ m, ev = LocalProvider.ConnectEvent.socketError m →
      (LocalProvider.connectSettle st ev).1 = Except.error m) ∧
    (ev = LocalProvider.ConnectEvent.timeoutFired →
      LocalProvider.connectSettle st ev
        = (Except.error "Connection timeout", [Effect.wsClose])) := by
  cases ev with
  | authResponse s e =>
    cases s with
    | true => simp [LocalProvider.connectSettle]
    | false =>
      refine ⟨by simp [LocalProvider.connectSettle], ?_, ?_, by simp, by simp⟩
      · intro t ht heq
        cases heq
        simp [LocalProvider.connectSettle, jsOrDefault, ht]
      · intro e' he' heq
        cases heq
        cases e with
        | none => simp [LocalProvider.connectSettle, jsOrDefault]
        | some s =>
          have hs : s = "" := by simpa [truthy] using he'
          subst hs
          simp [LocalProvider.connectSettle, jsOrDefault]
  | socketError m => simp [LocalProvider.connectSettle]
  | timeoutFired => simp [LocalProvider.connectSettle, hws]

/-- Witness for C2 at a provider holding a socket: a successful AuthResponse
resolves, an AuthResponse failure whose error field is the falsy empty string
rejects with the Unknown error text, and the timeout rejects with the timeout
error while closing the socket. -/
theorem C2_connect_resolution_witness :
    stOpenEmpty.ws.isSome ∧
    (LocalProvider.connectSettle stOpenEmpty
      (LocalProvider.ConnectEvent.authResponse true none)).1 = Except.ok () ∧
    (LocalProvider.connectSettle stOpenEmpty
      (LocalProvider.ConnectEvent.authResponse false (some ""))).1
      = Except.error "Authentication failed: Unknown error" ∧
    LocalProvider.connectSettle stOpenEmpty LocalProvider.ConnectEvent.timeoutFired
      = (Except.error "Connection timeout", [Effect.wsClose]) :=
  ⟨by decide,
   ((C2_connect_resolution stOpenEmpty
      (LocalProvider.ConnectEvent.authResponse true none) (by decide)).1).2
     ⟨none, rfl⟩,
   (C2_connect_resolution stOpenEmpty
      (LocalProvider.ConnectEvent.authResponse false (some "")) (by decide)).2.2.1
     (some "") (by decide) rfl,
   (C2_connect_resolution stOpenEmpty LocalProvider.ConnectEvent.timeoutFired
      (by decide)).2.2.2.2 rfl⟩

/-- Helper: the constructor wrapping a socket handle into a TCP destroy
effect is injective. -/
theorem tcpDestroy_injective : Function.Injective Effect.tcpDestroy := by
  intro a b h
  injection h

/-- Helper: the constructor wrapping a socket handle into a UDP close effect
is injective. -/
theorem udpClose_injective : Function.Injective Effect.udpClose := by
  intro a b h
  injection h

/-- Claim C8: close sets the shutdown flag, empties both channel registries,
nulls the socket, performs exactly one shutdown per registered channel —
N TCP destroys plus M UDP closes, and exactly once per channel socket — and a
second close (equally, a close of a never-connected provider) performs no
effect at all and returns the same closed state. -/
theorem C8_close_teardown (st : ProviderState)
    (htcp : (st.tcpChannels.map Prod.snd).Nodup)
    (hudp : (st.udpChannels.map Prod.snd).Nodup) :
    (LocalProvider.close st).1.isClosing = true ∧
    (LocalProvider.close st).1.tcpChannels = [] ∧
    (LocalProvider.close st).1.udpChannels = [] ∧
    (LocalProvider.close st).1.ws = none ∧
    ((LocalProvider.close st).2.filter isChannelShutdown).length
      = st.tcpChannels.length + st.udpChannels.length ∧
    (∀ p ∈ st.tcpChannels,
      (LocalProvider.close st).2.count (Effect.tcpDestroy p.2) = 1) ∧
    (∀ p ∈ st.udpChannels,
      (LocalProvider.close st).2.count (Effect.udpClose p.2) = 1) ∧
    LocalProvider.close (LocalProvider.close st).1
      = ((LocalProvider.close st).1, []) := by
  refine ⟨rfl, rfl, rfl, rfl, ?_, ?_, ?_, rfl⟩
  · have h1 : (st.tcpChannels.map fun p => Effect.tcpDestroy p.2).filter
        isChannelShutdown = st.tcpChannels.map fun p => Effect.tcpDestroy p.2 :=
      List.filter_eq_self.mpr (by
        intro a ha
        obtain ⟨p, _, rfl⟩ := List.mem_map.mp ha
        rfl)
    have h2 : (st.udpChannels.map fun p => Effect.udpClose p.2).filter
        isChannelShutdown = st.udpChannels.map fun p => Effect.udpClose p.2 :=
      List.filter_eq_self.mpr (by
        intro a ha
        obtain ⟨p, _, rfl⟩ := List.mem_map.mp ha
        rfl)
    simp [LocalProvider.close, List.filter_append, h1, h2, isChannelShutdown]
  · intro p hp
    have hmem : p.2 ∈ st.tcpChannels.map Prod.snd := List.mem_map_of_mem _ hp
    have hcount : (st.tcpChannels.map fun q => Effect.tcpDestroy q.2).count
        (Effect.tcpDestroy p.2) = (st.tcpChannels.map Prod.snd).count p.2 := by
      rw [show (st.tcpChannels.map fun q => Effect.tcpDestroy q.2)
          = (st.tcpChannels.map Prod.snd).map Effect.tcpDestroy from
        (List.map_map _ _ _).symm]
      exact List.count_map_of_injective _ _ tcpDestroy_injective _
    have hone : (st.tcpChannels.map Prod.snd).count p.2 = 1 :=
      List.count_eq_one_of_mem htcp hmem
    have hud : (st.udpChannels.map fun q => Effect.udpClose q.2).count
        (Effect.tcpDestroy p.2) = 0 := by
      refine List.count_eq_zero.mpr ?_
      intro hmm
      obtain ⟨q, _, hq⟩ := List.mem_map.mp hmm
      exact Effect.noConfusion hq
    have hws : (if st.ws.isSome then [Effect.wsClose] else []).count
        (Effect.tcpDestroy p.2) = 0 := by
      split <;> simp
    simp only [LocalProvider.close, List.count_append]
    rw [hcount, hone, hud, hws]
  · intro p hp
    have hmem : p.2 ∈ st.udpChannels.map Prod.snd := List.mem_map_of_mem _ hp
    have hcount : (st.udpChannels.map fun q => Effect.udpClose q.2).count
        (Effect.udpClose p.2) = (st.udpChannels.map Prod.snd).count p.2 := by
      rw [show (st.udpChannels.map fun q => Effect.udpClose q.2)
          = (st.udpChannels.map Prod.snd).map Effect.udpClose from
        (List.map_map _ _ _).symm]
      exact List.count_map_of_injective _ _ udpClose_injective _
    have hone : (st.udpChannels.map Prod.snd).count p.2 = 1 :=
      List.count_eq_one_of_mem hudp hmem
    have htc : (st.tcpChannels.map fun q => Effect.tcpDestroy q.2).count
        (Effect.udpClose p.2) = 0 := by
      refine List.count_eq_zero.mpr ?_
      intro hmm
      obtain ⟨q, _, hq⟩ := List.mem_map.mp hmm
      exact Effect.noConfusion hq
    have hws : (if st.ws.isSome then [Effect.wsClose] else []).count
        (Effect.udpClose p.2) = 0 := by
      split <;> simp
    simp only [LocalProvider.close, List.count_append]
    rw [hcount, hone, htc, hws]

/-- Witness for C8: closing a provider with two TCP channels and one UDP
channel performs three shutdowns, one per socket, and a second close is a
no-op. -/
theorem C8_close_teardown_witness :
    ((LocalProvider.close stTwoTcpOneUdp).2.filter isChannelShutdown).length = 3 ∧
    (LocalProvider.close stTwoTcpOneUdp).2.count (Effect.tcpDestroy 1) = 1 ∧
    LocalProvider.close (LocalProvider.close stTwoTcpOneUdp).1
      = ((LocalProvider.close stTwoTcpOneUdp).1, []) :=
  ⟨(C8_close_teardown stTwoTcpOneUdp (by decide) (by decide)).2.2.2.2.1,
   (C8_close_teardown stTwoTcpOneUdp (by decide) (by decide)).2.2.2.2.2.1
     ("a", 1) (by decide),
   (C8_close_teardown stTwoTcpOneUdp (by decide) (by decide)).2.2.2.2.2.2.2⟩

/-- Helper: adding an element to a JS Set makes it a member. -/
theorem mem_setAdd_self (l : List String) (t : String) : t ∈ setAdd l t := by
  unfold setAdd
  split
  · assumption
  · simp

/-- Counterexample to claim C5 as stated: on a connected provider with an
empty token registry, addConnectorToken emits the Connector add frame but the
token is not a member of the local set reported by getConnectorTokens — no
ConnectorResponse having arrived, membership has not been established. -/
theorem C5_counterexample :
    (LocalProvider.addConnectorToken stOpenEmpty "ch1" (some "tok")).2
      = [Effect.wsSend (Frame.connector "ch1" "tok" ConnOp.add)] ∧
    "tok" ∉ LocalProvider.getConnectorTokens
      (LocalProvider.addConnectorToken stOpenEmpty "ch1" (some "tok")).1 := by
  decide

/-- Claim C5 as amended: addConnectorToken emits the Connector add frame
(when the relay socket is open) but leaves the local token set untouched; the
token becomes a member of the set reported by getConnectorTokens only when a
ConnectorResponse with success and that token arrives. -/
theorem C5_token_add_amended (st : ProviderState) (ch t : String)
    (hopen : st.ws = some wsOPEN) (ht : t ≠ "") :
    (LocalProvider.addConnectorToken st ch (some t)).2
      = [Effect.wsSend (Frame.connector ch t ConnOp.add)] ∧
    (LocalProvider.addConnectorToken st ch (some t)).1 = st ∧
    t ∈ LocalProvider.getConnectorTokens
      (LocalProvider.handleConnectorResponse st true (some t)) := by
  refine ⟨?_, rfl, ?_⟩
  · simp [LocalProvider.addConnectorToken, LocalProvider.send, hopen]
  · simp [LocalProvider.handleConnectorResponse, LocalProvider.getConnectorTokens,
      truthy, ht]
    exact mem_setAdd_self _ _

/-- Witness for C5 as amended, at a concrete connected provider and token. -/
theorem C5_token_add_amended_witness :
    (LocalProvider.addConnectorToken stOpenEmpty "ch1" (some "tok")).1
      = stOpenEmpty ∧
    "tok" ∈ LocalProvider.getConnectorTokens
      (LocalProvider.handleConnectorResponse stOpenEmpty true (some "tok")) :=
  ⟨(C5_token_add_amended stOpenEmpty "ch1" "tok" (by decide) (by decide)).2.1,
   (C5_token_add_amended stOpenEmpty "ch1" "tok" (by decide) (by decide)).2.2⟩

/-- Number of Connector add frames carrying the given token among a list of
effects. -/
def countTokenAdd (t : String) (l : List Effect) : Nat :=
  (l.filter fun e => match e with
    | Effect.wsSend (Frame.connector _ tok ConnOp.add) => tok = t
    | _ => false).length

/-- Helper: counting over a cons of a Connector add frame. -/
theorem countTokenAdd_cons (t ch s : String) (l : List Effect) :
    countTokenAdd t (Effect.wsSend (Frame.connector ch s ConnOp.add) :: l)
      = countTokenAdd t l + (if s = t then 1 else 0) := by
  by_cases h : s = t <;> simp [countTokenAdd, List.filter_cons, h]

/-- Helper: sending each frame of a list over an open socket transmits
exactly that list of frames. -/
theorem flatMap_send_open (st : ProviderState) (hopen : st.ws = some wsOPEN) :
    ∀ l : List Frame, l.flatMap (LocalProvider.send st) = l.map Effect.wsSend
  | [] => rfl
  | f :: rest => by
    simp [List.flatMap_cons, LocalProvider.send, hopen,
      flatMap_send_open st hopen rest]

/-- Helper: the replay loop emits each token of the list as many times as the
list holds it, whatever the fresh channel id supply. -/
theorem countTokenAdd_replay (uuid : Nat → String) (t : String) :
    ∀ (ts : List String) (k : Nat),
      countTokenAdd t ((LocalProvider.replayFrames uuid k ts).map Effect.wsSend)
        = ts.count t
  | [], _ => rfl
  | s :: rest, k => by
    have ih := countTokenAdd_replay uuid t rest (k + 1)
    by_cases h : s = t <;>
      simp [LocalProvider.replayFrames, List.map_cons, countTokenAdd_cons, ih,
        List.count_cons, h]

/-- A concrete supply of fresh uuidv4 channel ids. -/
def uuidSupply : Nat → String :=
  fun n => "uuid-" ++ toString n

/-- A disconnected provider whose registry holds the two confirmed tokens a
and b. -/
def stTwoTokens : ProviderState :=
  { stNeverConnected with connectorTokens := ["a", "b"] }

/-- Counterexample to claim C6 as stated: two tokens a and b are added via
addConnectorToken before a connection drop (each add emits its Connector
frame), but since addConnectorToken does not insert into the local registry
and no ConnectorResponse confirmed them, the registry stays empty and after a
successful reconnection token a is re-sent zero times, not exactly once. -/
theorem C6_counterexample :
    (LocalProvider.addConnectorToken stOpenEmpty "c1" (some "a")).2
      = [Effect.wsSend (Frame.connector "c1" "a" ConnOp.add)] ∧
    (LocalProvider.addConnectorToken
        ((LocalProvider.addConnectorToken stOpenEmpty "c1" (some "a")).1)
        "c2" (some "b")).2
      = [Effect.wsSend (Frame.connector "c2" "b" ConnOp.add)] ∧
    countTokenAdd "a"
      (LocalProvider.reconnectSuccess uuidSupply
        { (LocalProvider.addConnectorToken
            ((LocalProvider.addConnectorToken stOpenEmpty "c1" (some "a")).1)
            "c2" (some "b")).1 with ws := none }).2 = 0 := by
  decide

/-- Claim C6 as amended: after every successful reconnection the
reconnect-attempt counter is zero and every token currently held by the
connector-token registry is re-sent exactly once each (in particular both of
two registry-held tokens); a token is held by the registry when a
ConnectorResponse confirmed it, not merely when addConnectorToken was called. -/
theorem C6_reconnect_replay_amended (uuid : Nat → String) (st : ProviderState)
    (t : String) (hnd : st.connectorTokens.Nodup)
    (hmem : t ∈ st.connectorTokens) :
    (LocalProvider.reconnectSuccess uuid st).1.reconnectAttempts = 0 ∧
    countTokenAdd t (LocalProvider.reconnectSuccess uuid st).2 = 1 := by
  refine ⟨rfl, ?_⟩
  simp only [LocalProvider.reconnectSuccess]
  rw [flatMap_send_open _ rfl, countTokenAdd_replay]
  exact List.count_eq_one_of_mem hnd hmem

/-- Witness for C6 as amended: with the two registry-held tokens a and b,
both are re-sent exactly once after a successful reconnection and the counter
is reset. -/
theorem C6_reconnect_replay_amended_witness :
    countTokenAdd "a" (LocalProvider.reconnectSuccess uuidSupply stTwoTokens).2 = 1 ∧
    countTokenAdd "b" (LocalProvider.reconnectSuccess uuidSupply stTwoTokens).2 = 1 ∧
    (LocalProvider.reconnectSuccess uuidSupply stTwoTokens).1.reconnectAttempts = 0 :=
  ⟨(C6_reconnect_replay_amended uuidSupply stTwoTokens "a" (by decide) (by decide)).2,
   (C6_reconnect_replay_amended uuidSupply stTwoTokens "b" (by decide) (by decide)).2,
   (C6_reconnect_replay_amended uuidSupply stTwoTokens "a" (by decide) (by decide)).1⟩

/-- Helper: a value found in the map occurs among the map's values. -/
theorem mapGet_mem_snd :
    ∀ (m : List (String × Nat)) (k : String) (v : Nat),
      mapGet m k = some v → v ∈ m.map Prod.snd
  | [], _, _, h => by simp [mapGet] at h
  | p :: rest, k, v, h => by
    unfold mapGet at h
    split at h
    · cases h
      rw [List.map_cons]
      exact List.mem_cons_self _ _
    · rw [List.map_cons]
      exact List.mem_cons_of_mem _ (mapGet_mem_snd rest k v h)

/-- Helper: looking up the key just set finds the new value. -/
theorem mapGet_mapSet_self :
    ∀ (m : List (String × Nat)) (k : String) (v : Nat),
      mapGet (mapSet m k v) k = some v
  | [], k, v => by simp [mapGet, mapSet]
  | p :: rest, k, v => by
    unfold mapSet
    split
    · simp [mapGet]
    · simp only [mapGet]
      split
      · exact absurd (by assumption) (by assumption)
      · exact mapGet_mapSet_self rest k v

/-- Helper: when the map's values are duplicate-free and key k holds value
s₁, setting k to a different value s₂ removes s₁ from the values entirely:
the replaced socket is no longer registered anywhere. -/
theorem notMem_snd_mapSet :
    ∀ (m : List (String × Nat)) (k : String) (s₁ s₂ : Nat),
      mapGet m k = some s₁ → (m.map Prod.snd).Nodup → s₂ ≠ s₁ →
      s₁ ∉ (mapSet m k s₂).map Prod.snd
  | [], k, s₁, s₂, hget, _, _ => by simp [mapGet] at hget
  | p :: rest, k, s₁, s₂, hget, hnd, hne => by
    unfold mapGet at hget
    unfold mapSet
    rw [List.map_cons, List.nodup_cons] at hnd
    split at hget
    · cases hget
      rename_i hpk
      simp only [hpk, if_pos rfl] -- hmm
      intro hmm
      rcases List.mem_cons.mp hmm with h | h
      · exact hne h.symm
      · exact hnd.1 h
    · rename_i hpk
      rw [if_neg hpk]
      intro hmm
      rcases List.mem_cons.mp hmm with h | h
      · exact hnd.1 (h ▸ mapGet_mem_snd rest k s₁ hget)
      · exact notMem_snd_mapSet rest k s₁ s₂ hget hnd.2 hne h

/-- Helper: send produces nothing but frame transmissions. -/
theorem send_frames_only (st : ProviderState) (f : Frame) (e : Effect)
    (he : e ∈ LocalProvider.send st f) : e = Effect.wsSend f := by
  unfold LocalProvider.send at he
  split at he
  · simpa using he
  · simp at he

/-- Counterexample to claim C1 as stated: with channel id c already
registered on socket 1, an inbound Connect for c is neither rejected nor a
no-op — a second socket (handle 2) is opened, on its connect event the
registry entry for c is replaced by socket 2, and socket 1 is never destroyed
although it is no longer registered: the first socket is silently leaked. -/
theorem C1_counterexample :
    Effect.tcpSocketOpen 2 "target.example" 80
      ∈ LocalProvider.handleTCPConnect stOneTcp "c" "target.example" 80 2 ∧
    (LocalProvider.tcpConnectCallback stOneTcp "c" 2).1.tcpChannels = [("c", 2)] ∧
    (1 : Nat) ∉
      (LocalProvider.tcpConnectCallback stOneTcp "c" 2).1.tcpChannels.map Prod.snd ∧
    Effect.tcpDestroy 1 ∉
      LocalProvider.handleTCPConnect stOneTcp "c" "target.example" 80 2
        ++ (LocalProvider.tcpConnectCallback stOneTcp "c" 2).2 := by
  decide

/-- Claim C1 as amended: a Connect frame for an identifier that is already
registered opens a fresh socket and, upon that socket's successful
connection, replaces the registry entry with the new channel; the previously
registered socket receives no destroy and (the registry values being
pairwise-distinct sockets) is left open but unregistered — it leaks. -/
theorem C1_duplicate_connect_amended (st : ProviderState)
    (cid addr : String) (port s₁ s₂ : Nat)
    (hreg : mapGet st.tcpChannels cid = some s₁)
    (hnd : (st.tcpChannels.map Prod.snd).Nodup)
    (hfresh : s₂ ≠ s₁) :
    Effect.tcpSocketOpen s₂ addr port
      ∈ LocalProvider.handleTCPConnect st cid addr port s₂ ∧
    mapGet (LocalProvider.tcpConnectCallback st cid s₂).1.tcpChannels cid
      = some s₂ ∧
    s₁ ∉ (LocalProvider.tcpConnectCallback st cid s₂).1.tcpChannels.map Prod.snd ∧
    Effect.tcpDestroy s₁ ∉
      LocalProvider.handleTCPConnect st cid addr port s₂
        ++ (LocalProvider.tcpConnectCallback st cid s₂).2 := by
  refine ⟨by simp [LocalProvider.handleTCPConnect], ?_, ?_, ?_⟩
  · exact mapGet_mapSet_self _ _ _
  · exact notMem_snd_mapSet _ _ _ _ hreg hnd hfresh
  · intro hmm
    rcases List.mem_append.mp hmm with h | h
    · simp [LocalProvider.handleTCPConnect] at h
    · exact Effect.noConfusion (send_frames_only _ _ _ h)

/-- Witness for C1 as amended, at the concrete provider holding channel c on
socket 1 and a fresh socket 2. -/
theorem C1_duplicate_connect_amended_witness :
    mapGet (LocalProvider.tcpConnectCallback stOneTcp "c" 2).1.tcpChannels "c"
      = some 2 ∧
    (1 : Nat) ∉
      (LocalProvider.tcpConnectCallback stOneTcp "c" 2).1.tcpChannels.map Prod.snd :=
  ⟨(C1_duplicate_connect_amended stOneTcp "c" "t" 80 1 2 (by decide) (by decide)
      (by decide)).2.1,
   (C1_duplicate_connect_amended stOneTcp "c" "t" 80 1 2 (by decide) (by decide)
      (by decide)).2.2.1⟩

/-- Helper: after deleting a key, looking it up finds nothing. -/
theorem mapGet_mapDelete_self :
    ∀ (m : List (String × Nat)) (k : String), mapGet (mapDelete m k) k = none
  | [], _ => rfl
  | p :: rest, k => by
    unfold mapDelete
    split
    · exact mapGet_mapDelete_self rest k
    · unfold mapGet
      rw [if_neg (by assumption)]
      exact mapGet_mapDelete_self rest k

/-- Counterexample to claim C4 as stated: on a provider holding TCP channel c
on socket 1 with the relay socket open, the inbound Disconnect teardown does
emit a frame back to the relay — destroying the channel socket fires its
close event, whose callback sends a Disconnect frame for c. -/
theorem C4_counterexample :
    (LocalProvider.disconnectTeardown stOneTcp "c").2
      = [Effect.tcpDestroy 1, Effect.wsSend (Frame.disconnect "c")] ∧
    Effect.wsSend (Frame.disconnect "c")
      ∈ (LocalProvider.disconnectTeardown stOneTcp "c").2 := by
  decide

/-- Claim C4 as amended: an inbound Disconnect for a registered TCP channel
destroys that channel's socket and removes the registry entry, and the
handler itself emits nothing; but the destroyed socket's close event then
runs the close callback, which sends a Disconnect frame for the same channel
back to the relay — so the teardown as a whole does emit one frame. -/
theorem C4_disconnect_teardown_amended (st : ProviderState) (cid : String)
    (s : Nat)
    (htcp : mapGet st.tcpChannels cid = some s)
    (hudp : mapGet st.udpChannels cid = none)
    (hopen : st.ws = some wsOPEN) :
    (LocalProvider.handleDisconnectMessage st cid).2 = [Effect.tcpDestroy s] ∧
    mapGet (LocalProvider.handleDisconnectMessage st cid).1.tcpChannels cid
      = none ∧
    (LocalProvider.disconnectTeardown st cid).2
      = [Effect.tcpDestroy s, Effect.wsSend (Frame.disconnect cid)] := by
  have h1 : LocalProvider.handleDisconnectMessage st cid
      = ({ st with tcpChannels := mapDelete st.tcpChannels cid },
         [Effect.tcpDestroy s]) := by
    unfold LocalProvider.handleDisconnectMessage
    rw [htcp]
    simp only [hudp]
  refine ⟨by rw [h1], ?_, ?_⟩
  · rw [h1]
    exact mapGet_mapDelete_self _ _
  · unfold LocalProvider.disconnectTeardown
    rw [h1]
    simp [LocalProvider.tcpCloseCallback, LocalProvider.sendDisconnect,
      LocalProvider.send, hopen]

/-- Witness for C4 as amended, at the concrete provider holding channel c on
socket 1. -/
theorem C4_disconnect_teardown_amended_witness :
    (LocalProvider.handleDisconnectMessage stOneTcp "c").2
      = [Effect.tcpDestroy 1] ∧
    (LocalProvider.disconnectTeardown stOneTcp "c").2
      = [Effect.tcpDestroy 1, Effect.wsSend (Frame.disconnect "c")] :=
  ⟨(C4_disconnect_teardown_amended stOneTcp "c" 1 (by decide) (by decide)
      (by decide)).1,
   (C4_disconnect_teardown_amended stOneTcp "c" 1 (by decide) (by decide)
      (by decide)).2.2⟩

/-- Effects that transmit an Auth frame. -/
def isAuthEffect : Effect → Bool
  | Effect.wsSend (Frame.auth _) => true
  | _ => false

/-- Counterexample to claim C3 as stated: once the socket to the relay URL is
open, connect() runs only the open callback, which resets the reconnect
counter and sends nothing at all — in particular no Auth frame containing a
token is sent before the provider waits for the AuthResponse. -/
theorem C3_counterexample :
    (LocalProvider.connectOpenCallback stOpenEmpty).2 = [] ∧
    ∀ e ∈ (LocalProvider.connectOpenCallback stOpenEmpty).2,
      isAuthEffect e = false := by
  decide

/-- Claim C3 as amended: connect() sends no authentication frame — the open
callback only resets the reconnect-attempt counter and transmits nothing, and
the provider then waits for the AuthResponse; the token instead reaches the
relay inside the derived connection URL, whose query string carries the
hashed token. -/
theorem C3_connect_auth_amended (st : ProviderState)
    (hash : List Char → List Char) (url token : List Char) :
    LocalProvider.connectOpenCallback st
      = ({ st with reconnectAttempts := 0 }, []) ∧
    (∃ pre, derivedRelayUrl hash url token
      = pre ++ "token=".data ++ hash token ++ "&reverse=true".data) := by
  refine ⟨rfl, ?_⟩
  simp only [derivedRelayUrl, buildWebSocketUrl]
  split
  · exact ⟨_, rfl⟩
  · refine ⟨stripTrailingSlash (normalizeWsUrl url) ++ "/socket?".data, ?_⟩
    simp [List.append_assoc]

